import Mathlib

/-!
# Verification of the excel-map address-to-coordinate pipeline (src/app.py)

Shallow embedding of the pure core of `src/app.py`:
strings are modelled as Lean `String`s (manipulated through their
character lists), pandas `NaN` / Python `None` as `Option.none`,
Python floats as rationals (`ℚ`), and a pandas `DataFrame` as a
`List Record` in row order.  Streamlit's `st.cache_data` memoisation
is modelled as explicit cache state, and `st.session_state` key
tracking as an explicit saved-key list threaded through calls.
-/

namespace ExcelMap

/-- One dataset row: the columns of the sheet that the pipeline reads
(`Adres`, `Miasto`, `PSC`, `Nazwa odbiorcy`, `email`, `Obrót w czk`
after parsing, and the coordinate columns `lat` / `lon`, where a
pandas `NaN` cell is `none`). -/
structure Record where
  adres : String
  miasto : String
  psc : String
  nazwa : String
  email : String
  obr : Option ℚ
  lat : Option ℚ
  lon : Option ℚ
  deriving Repr, DecidableEq

/-! ## Character-list helpers (Python string primitives) -/

/-- Python `str.strip()`: drop leading and trailing whitespace. -/
def trimChars (l : List Char) : List Char :=
  ((l.dropWhile Char.isWhitespace).reverse.dropWhile Char.isWhitespace).reverse

/-- `s.replace("\xa0", " ")`: map the non-breaking space to a plain space. -/
def nbspToSpace (c : Char) : Char :=
  if c = '\u00A0' then ' ' else c

/-- `s.replace(",", ".")` applied characterwise. -/
def commaToDot (c : Char) : Char :=
  if c = ',' then '.' else c

/-- The numeric value of a digit list, most significant first
(`0` for the empty list, as in the fraction-free cases of `float`). -/
def natOfDigits : List Char → Nat
  | [] => 0
  | c :: cs => (c.toNat - 48) * 10 ^ cs.length + natOfDigits cs

/-- Python `float(s)` restricted to the character set `[0-9.\-]` that the
cleaned strings of `app.py` can contain (the `re.sub` in `parse_czk`
keeps only those characters; `_normalize_coord`'s `pd.to_numeric`
behaves the same on its cleaned input): an optional leading minus,
then digits with at most one decimal point and at least one digit.
Anything else fails, i.e. parses to `none` (a Python `ValueError`
that the callers coerce to `NaN`). -/
def parsePyFloat (l : List Char) : Option ℚ :=
  let (neg, body) :=
    match l with
    | '-' :: rest => (true, rest)
    | _ => (false, l)
  match body.splitOn '.' with
  | [ip] =>
    if !ip.isEmpty && ip.all Char.isDigit then
      let n : Int := natOfDigits ip
      some (mkRat (if neg then -n else n) 1)
    else none
  | [ip, fp] =>
    if (!ip.isEmpty || !fp.isEmpty) && ip.all Char.isDigit && fp.all Char.isDigit then
      let m : Nat := natOfDigits ip * 10 ^ fp.length + natOfDigits fp
      some (mkRat (if neg then -(m : Int) else (m : Int)) (10 ^ fp.length))
    else none
  | _ => none

/-! ## Address normalisation (`build_full_address`, `row_key`) -/

/-- Python `", ".join(parts)`. -/
def joinComma : List String → String
  | [] => ""
  | [p] => p
  | p :: ps => p ++ ", " ++ joinComma ps

/-- `build_full_address` (src/app.py:137-142): trim the `Adres`, `Miasto`
and `PSC` fields, append the fixed country name `"Czechy"`, drop the
parts that are empty, and join the rest with `", "`. -/
def build_full_address (r : Record) : String :=
  let parts := [String.mk (trimChars r.adres.data),
                String.mk (trimChars r.miasto.data),
                String.mk (trimChars r.psc.data),
                "Czechy"]
  joinComma (parts.filter (fun p => p ≠ ""))

/-- `row_key` (src/app.py:147-150): the stable write-back identity of a
row, derived from its full address and the `Nazwa odbiorcy` field.
The source takes the SHA-1 hex digest of this base string; since the
digest is a fixed deterministic injection used only for key equality,
we model it by the base string itself. -/
def row_key (r : Record) : String :=
  String.mk (trimChars (build_full_address r ++ "|" ++ r.nazwa).data)

/-! ## Monetary parsing (`parse_czk`) -/

/-- `re.fullmatch(r"-?\d+", s)`: an optional leading minus followed by
one or more digits. -/
def isIntLiteral (l : List Char) : Bool :=
  match l with
  | '-' :: rest => !rest.isEmpty && rest.all Char.isDigit
  | _ => !l.isEmpty && l.all Char.isDigit

/-- The cleaning performed by `parse_czk` before `float(s)`:
hard spaces to spaces, spaces removed (thousands separators),
comma to dot, and every character outside `[0-9.\-]` dropped. -/
def cleanMoney (l : List Char) : List Char :=
  ((((l.map nbspToSpace).filter (fun c => c ≠ ' ')).map commaToDot).filter
    (fun c => c.isDigit || c = '.' || c = '-'))

/-- Python `s.lower() in ("nan", "none")` ∨ `not s`: the sentinel
values that `parse_czk` and `_normalize_coord` treat as empty. -/
def isEmptySentinel (l : List Char) : Bool :=
  l.isEmpty || (l.map Char.toLower) = "nan".data || (l.map Char.toLower) = "none".data

/-- `parse_czk` (src/app.py:16-41): strip, treat empty/`nan`/`none` as
`NaN` (here `none`), clean the string, parse it as a float (failure is
`NaN`, never an exception), then apply the rescaling heuristic: if the
original stripped string was a bare integer literal (no comma, no dot)
and the parsed absolute value is at least 100, divide by 100
("grosze", e.g. `"48711"` ↦ 487.11). -/
def parse_czk (x : String) : Option ℚ :=
  let raw := trimChars x.data
  if isEmptySentinel raw then none
  else
    let hasComma := raw.contains ','
    let hasDot := raw.contains '.'
    match parsePyFloat (cleanMoney raw) with
    | none => none
    | some val =>
      if !hasComma && !hasDot && isIntLiteral raw && decide (100 ≤ |val|) then
        some (val / 100)
      else some val

/-! ## Coordinate parsing (`_normalize_coord`) -/

/-- The elementwise action of `_normalize_coord` (src/app.py:59-66) on
one cell of the `lat`/`lon` series: strip, map the sentinels
`""`/`"None"`/`"nan"` to missing, drop hard spaces and spaces, turn
decimal commas into dots, and coerce to a number with parse failure
becoming missing (`pd.to_numeric(errors="coerce")`). -/
def _normalize_coord (x : String) : Option ℚ :=
  let s := trimChars x.data
  if s.isEmpty || s = "None".data || s = "nan".data then none
  else
    parsePyFloat (((s.map nbspToSpace).filter (fun c => c ≠ ' ')).map commaToDot)

/-! ## Geocoding (`geocode_one`, `geocode_missing`) -/

/-- The provider side of one `_geocode` round trip: the rate-limited
`Nominatim` lookup either yields a coordinate or fails (timeouts,
network errors and provider errors are swallowed by the
`RateLimiter(swallow_exceptions=True)` wrapper and the
`try/except` in `geocode_one`, all ending as `none`). -/
abbrev Provider : Type := String → Option (ℚ × ℚ)

/-- The memoisation state of `@st.cache_data def geocode_one`: the
per-address result cache, plus a count of outbound provider calls
issued so far (one per cache miss on a non-empty address). -/
structure GeoState where
  cache : List (String × Option (ℚ × ℚ))
  calls : Nat
  deriving Repr, DecidableEq

/-- `geocode_one` (src/app.py:153-164) under its `st.cache_data`
memoisation: a cached address is answered from the cache with no
outbound call; otherwise the empty address yields `none` without
calling the provider, and a non-empty address issues exactly one
provider call, whose result (coordinate or failure) is stored. -/
def geocode_one (p : Provider) (st : GeoState) (address : String) :
    Option (ℚ × ℚ) × GeoState :=
  match st.cache.lookup address with
  | some res => (res, st)
  | none =>
    if address = "" then
      (none, { st with cache := (address, none) :: st.cache })
    else
      let res := p address
      (res, { cache := (address, res) :: st.cache, calls := st.calls + 1 })

/-- The `need` mask of `geocode_missing`: a row needs resolution iff
its `lat` or its `lon` is missing. -/
def needsGeo (r : Record) : Bool :=
  r.lat.isNone || r.lon.isNone

/-- `geocode_missing` (src/app.py:166-188), instrumented with the list
of addresses it sends to the resolver (the source logs each one via
`status.text` just before calling `geocode_one`).  Every row whose
`lat` or `lon` is missing is attempted, in dataset order, with no cap;
a successful lookup fills both coordinates, a failed one leaves the
row unchanged.  Rows that already have both coordinates are not
touched and not attempted.  `geocode_one`'s cache (C3) makes the
per-address result deterministic within a run, so the batch is
modelled against a fixed resolution function `geo`. -/
def geocode_missing_log (geo : String → Option (ℚ × ℚ)) :
    List Record → List Record × List String
  | [] => ([], [])
  | r :: rs =>
    let rest := geocode_missing_log geo rs
    if needsGeo r then
      let addr := build_full_address r
      match geo addr with
      | some (a, o) => ({ r with lat := some a, lon := some o } :: rest.1, addr :: rest.2)
      | none => (r :: rest.1, addr :: rest.2)
    else (r :: rest.1, rest.2)

/-- The dataframe returned by `geocode_missing`. -/
def geocode_missing (geo : String → Option (ℚ × ℚ)) (df : List Record) : List Record :=
  (geocode_missing_log geo df).1

/-- The addresses `geocode_missing` attempts to resolve, in order. -/
def geocodeAttempts (geo : String → Option (ℚ × ℚ)) (df : List Record) : List String :=
  (geocode_missing_log geo df).2

/-! ## Write-back (`write_back_latlon`) -/

/-- The `changed_mask` of `write_back_latlon` (src/app.py:202-205) for
one row: the original row had `NaN` in `lat` or `lon` and the updated
row now has both. -/
def changedMask (o u : Record) : Bool :=
  (o.lat.isNone || o.lon.isNone) && (u.lat.isSome && u.lon.isSome)

/-- The write loop of `write_back_latlon` (src/app.py:236-251) over the
rows of `original` and `updated` zipped in sheet order: a row is
written iff its `changed_mask` holds and its `row_key` has not been
written earlier in this session (`st.session_state["saved_latlon_keys"]`,
modelled as the explicit key list `saved`); each written row's key is
added to the session set.  Returns the written updated rows in order
(`updated_rows` in the source is their count) together with the new
session key set. -/
def write_back_latlon : List (Record × Record) → List String → List Record × List String
  | [], saved => ([], saved)
  | (o, u) :: rest, saved =>
    if changedMask o u then
      let key := row_key u
      if key ∈ saved then write_back_latlon rest saved
      else
        let r := write_back_latlon rest (key :: saved)
        (u :: r.1, r.2)
    else write_back_latlon rest saved

/-! ## The render path: region filters and `make_map` -/

/-- `lat.between(47, 55)` (inclusive, as in pandas). -/
def latInRegion (a : ℚ) : Bool :=
  decide (47 ≤ a ∧ a ≤ 55)

/-- `lon.between(11, 25)` (inclusive). -/
def lonInRegion (o : ℚ) : Bool :=
  decide (11 ≤ o ∧ o ≤ 25)

/-- The post-geocode cleanup (src/app.py:357-364): `bad_lat` rows
(`lat` present but outside 47..55) get `lat := NaN`, `bad_lon` rows
(`lon` present but outside 11..25) get `lon := NaN`, independently;
the rows stay in the dataframe, demoted to unresolved, and the only
surfaced signal is a sidebar warning with their count. -/
def postGeocodeRow (r : Record) : Record :=
  let r1 := match r.lat with
    | some a => if latInRegion a then r else { r with lat := none }
    | none => r
  match r1.lon with
    | some o => if lonInRegion o then r1 else { r1 with lon := none }
    | none => r1

/-- The elementwise cleanup applied to the whole dataframe. -/
def postGeocodeFilter (df : List Record) : List Record :=
  df.map postGeocodeRow

/-- The hard range validation before rendering (src/app.py:396-401):
a row is valid when each coordinate is either missing or in region;
`df_geo.where(valid_lat & valid_lon)` turns every cell of an invalid
row into `NaN` — in particular both coordinates become missing, which
is all the downstream `dropna` consults. -/
def rowValid (r : Record) : Bool :=
  (match r.lat with
    | some a => latInRegion a
    | none => true) &&
  (match r.lon with
    | some o => lonInRegion o
    | none => true)

/-- `df_geo.where(valid_lat & valid_lon)` applied to every row. -/
def hardValidate (df : List Record) : List Record :=
  df.map fun r => if rowValid r then r else { r with lat := none, lon := none }

/-- The marker locations that `make_map` (src/app.py:253-300) places on
the map: `dd = df.dropna(subset=["lat", "lon"])` keeps exactly the
rows with both coordinates present, and each contributes one
`CircleMarker` at `(lat, lon)`. -/
def make_map_points (df : List Record) : List (ℚ × ℚ) :=
  df.filterMap fun r =>
    match r.lat, r.lon with
    | some a, some o => some (a, o)
    | _, _ => none

/-- The full render-ready output of the script for a post-geocode
dataframe `df_geo`: the cleanup at src/app.py:357-364 followed by the
hard validation at src/app.py:396-401 and `make_map`'s row filter. -/
def renderReadyPoints (df : List Record) : List (ℚ × ℚ) :=
  make_map_points (hardValidate (postGeocodeFilter df))

/-! ## Concrete fixtures used by witnesses and counterexamples -/

/-- A blank row: every text field empty, every numeric field missing. -/
def blankRecord : Record :=
  { adres := "", miasto := "", psc := "", nazwa := "", email := "",
    obr := none, lat := none, lon := none }

/-- The spec's example row: street `"Main 1"`, city `"Brno"`,
postal code `"602 00"`, no coordinate. -/
def mainRecord : Record :=
  { blankRecord with adres := "Main 1", miasto := "Brno", psc := "602 00" }

/-! ## C4 — canonical address construction -/

/-- C4 (counterexample): on the spec's own example row (street
`"Main 1"`, city `"Brno"`, postal `"602 00"`), `build_full_address`
yields `"Main 1, Brno, 602 00, Czechy"` — the postal-code spaces are
kept, the city and postal code are separated by `", "`, and the fixed
country suffix `"Czechy"` is appended — not the claimed
`"Main 1, Brno 60200"`. -/
theorem C4_counterexample :
    build_full_address mainRecord = "Main 1, Brno, 602 00, Czechy" ∧
    build_full_address mainRecord ≠ "Main 1, Brno 60200" := by
  constructor <;> decide

/-- C4 (amended): for every record whose street, city and postal-code
fields are non-empty after trimming, the canonical full address is
`"{street}, {city}, {psc}, Czechy"` with each field trimmed, fields
joined by `", "`, postal-code spaces preserved, and the fixed country
name `"Czechy"` appended; empty fields are omitted from the join. -/
theorem C4_canonical_address (r : Record)
    (hs : String.mk (trimChars r.adres.data) ≠ "")
    (hc : String.mk (trimChars r.miasto.data) ≠ "")
    (hp : String.mk (trimChars r.psc.data) ≠ "") :
    build_full_address r =
      String.mk (trimChars r.adres.data) ++ ", " ++
      String.mk (trimChars r.miasto.data) ++ ", " ++
      String.mk (trimChars r.psc.data) ++ ", Czechy" := by
  simp only [build_full_address, List.filter, hs, hc, hp, decide_not,
    decide_eq_true_eq, if_pos, if_neg]
  simp [joinComma, hs, hc, hp, String.append_assoc]

/-- C4 (witness): the amended statement applied to the example row. -/
theorem C4_witness :
    build_full_address mainRecord = "Main 1, Brno, 602 00, Czechy" := by
  have h := C4_canonical_address mainRecord (by decide) (by decide) (by decide)
  rw [h]; decide

/-! ## C10 — the grosze rescaling heuristic of `parse_czk` -/

/-- The "as parsed" value of a `parse_czk` input: sentinel handling,
cleaning and float conversion exactly as in src/app.py:16-33, but
without the rescaling heuristic of src/app.py:37-39. -/
def parseMoneyPlain (x : String) : Option ℚ :=
  let raw := trimChars x.data
  if isEmptySentinel raw then none
  else parsePyFloat (cleanMoney raw)

/-- C10: `parse_czk` applies the hidden rescaling heuristic exactly to
bare integer literals: (1) if the stripped input matches `-?\d+` and
has neither comma nor dot, the parsed value is divided by 100 when its
absolute value is at least 100 and kept as parsed otherwise; (2) any
input containing a comma or a dot is returned as parsed; (3) an input
whose cleaned form fails to parse yields `none` (absent), never an
exception. -/
theorem C10_parse_czk_heuristic (x : String) :
    (∀ v : ℚ, isIntLiteral (trimChars x.data) = true →
      (trimChars x.data).contains ',' = false →
      (trimChars x.data).contains '.' = false →
      parseMoneyPlain x = some v →
      parse_czk x = some (if 100 ≤ |v| then v / 100 else v)) ∧
    ((trimChars x.data).contains ',' = true ∨ (trimChars x.data).contains '.' = true →
      parse_czk x = parseMoneyPlain x) ∧
    (parseMoneyPlain x = none → parse_czk x = none) := by
  refine ⟨?_, ?_, ?_⟩
  · intro v h1 h2 h3 hplain
    have hm2 : ',' ∉ trimChars x.data := by simpa using h2
    have hm3 : '.' ∉ trimChars x.data := by simpa using h3
    unfold parseMoneyPlain at hplain
    unfold parse_czk
    by_cases hsent : isEmptySentinel (trimChars x.data) = true
    · simp [hsent] at hplain
    · simp only [Bool.not_eq_true] at hsent
      simp only [hsent, if_false, Bool.false_eq_true] at hplain ⊢
      rw [hplain]
      by_cases hv : 100 ≤ |v|
      · simp [h1, hm2, hm3, hv]
      · simp [h1, hm2, hm3, hv]
  · intro hsep
    unfold parse_czk parseMoneyPlain
    by_cases hsent : isEmptySentinel (trimChars x.data) = true
    · simp [hsent]
    · simp only [Bool.not_eq_true] at hsent
      simp only [hsent, if_false, Bool.false_eq_true]
      cases hpf : parsePyFloat (cleanMoney (trimChars x.data)) with
      | none => simp
      | some v =>
        rcases hsep with h | h
        · have hm : ',' ∈ trimChars x.data := by simpa using h
          simp [hm]
        · have hm : '.' ∈ trimChars x.data := by simpa using h
          simp [hm]
  · intro hplain
    unfold parseMoneyPlain at hplain
    unfold parse_czk
    by_cases hsent : isEmptySentinel (trimChars x.data) = true
    · simp [hsent]
    · simp only [Bool.not_eq_true] at hsent
      simp only [hsent, if_false, Bool.false_eq_true] at hplain ⊢
      rw [hplain]

/-- C10 (witness): the heuristic branch of the statement applied to the
input `"48711"`, which parses to 487.11. -/
theorem C10_witness : parse_czk "48711" = some (48711 / 100 : ℚ) := by
  have h := (C10_parse_czk_heuristic "48711").1 48711 (by decide) (by decide) (by decide)
    (by decide)
  rw [h, if_pos (by norm_num)]

/-! ## C6 — totality and comma handling of `_normalize_coord` -/

/-- `commaToDot` never changes whether a character is whitespace. -/
lemma isWhitespace_commaToDot (c : Char) :
    (commaToDot c).isWhitespace = c.isWhitespace := by
  unfold commaToDot
  by_cases h : c = ','
  · subst h; decide
  · simp [h]

/-- Trimming commutes with the comma-to-dot substitution. -/
lemma trimChars_map_commaToDot (l : List Char) :
    trimChars (l.map commaToDot) = (trimChars l).map commaToDot := by
  unfold trimChars
  rw [List.dropWhile_map]
  rw [show (Char.isWhitespace ∘ commaToDot) = Char.isWhitespace from
    funext isWhitespace_commaToDot]
  rw [← List.map_reverse, List.dropWhile_map]
  rw [show (Char.isWhitespace ∘ commaToDot) = Char.isWhitespace from
    funext isWhitespace_commaToDot]
  rw [← List.map_reverse]

/-- Mapping `commaToDot` over a list fixes equality with any target list
that contains neither a comma nor a dot. -/
lemma map_commaToDot_eq_iff (l t : List Char) (ht : ∀ c ∈ t, c ≠ ',' ∧ c ≠ '.') :
    l.map commaToDot = t ↔ l = t := by
  induction l generalizing t with
  | nil => simp
  | cons a as ih =>
    cases t with
    | nil => simp
    | cons b bs =>
      have hb := ht b (by simp)
      have hbs : ∀ c ∈ bs, c ≠ ',' ∧ c ≠ '.' := fun c hc => ht c (by simp [hc])
      simp only [List.map_cons, List.cons.injEq, ih bs hbs]
      constructor
      · rintro ⟨h1, h2⟩
        refine ⟨?_, h2⟩
        by_cases ha : a = ','
        · subst ha
          simp only [commaToDot, if_pos rfl] at h1
          exact absurd h1.symm hb.2
        · simpa [commaToDot, ha] using h1
      · rintro ⟨h1, h2⟩
        subst h1
        exact ⟨by simp [commaToDot, hb.1], h2⟩

/-- The hard-space substitution and the comma substitution commute. -/
lemma nbspToSpace_commaToDot (c : Char) :
    nbspToSpace (commaToDot c) = commaToDot (nbspToSpace c) := by
  unfold nbspToSpace commaToDot
  by_cases h1 : c = ','
  · subst h1; decide
  · by_cases h2 : c = ' '
    · subst h2; decide
    · simp [h1, h2]

/-- The comma substitution neither creates nor removes plain spaces. -/
lemma commaToDot_ne_space (c : Char) :
    (decide (commaToDot c ≠ ' ')) = (decide (c ≠ ' ')) := by
  unfold commaToDot
  by_cases h : c = ','
  · subst h; decide
  · simp [h]

/-- The comma substitution is idempotent. -/
lemma commaToDot_idem (c : Char) :
    commaToDot (commaToDot c) = commaToDot c := by
  unfold commaToDot
  by_cases h : c = ','
  · subst h; decide
  · simp [h]

/-- C6: coordinate parsing is total (`Option`-valued: unparseable input
becomes `none`, never an exception) and converts decimal commas to
decimal points before numeric parsing — normalizing an input with its
commas already replaced by dots gives the same result as normalizing
the raw input.  On the spec's examples, `"49,20"` parses to 49.20,
`"16,61"` parses to 16.61, and the unparseable `"abc"` becomes
absent. -/
theorem C6_normalize_coord_comma (s : String) :
    _normalize_coord (String.mk (s.data.map commaToDot)) = _normalize_coord s ∧
    _normalize_coord "49,20" = some (49.20 : ℚ) ∧
    _normalize_coord "16,61" = some (16.61 : ℚ) ∧
    _normalize_coord "abc" = none := by
  refine ⟨?_, ?_, ?_, by decide⟩
  case refine_2 =>
    have h : _normalize_coord "49,20" = some (mkRat 246 5) := by decide
    rw [h]; norm_num [Rat.mkRat_eq_div]
  case refine_3 =>
    have h : _normalize_coord "16,61" = some (mkRat 1661 100) := by decide
    rw [h]; norm_num [Rat.mkRat_eq_div]
  unfold _normalize_coord
  simp only [trimChars_map_commaToDot]
  have hNone : ∀ c ∈ "None".data, c ≠ ',' ∧ c ≠ '.' := by decide
  have hnan : ∀ c ∈ "nan".data, c ≠ ',' ∧ c ≠ '.' := by decide
  have hsent :
      (((trimChars s.data).map commaToDot).isEmpty ||
        ((trimChars s.data).map commaToDot = "None".data) ||
        ((trimChars s.data).map commaToDot = "nan".data)) =
      ((trimChars s.data).isEmpty ||
        (trimChars s.data = "None".data) || (trimChars s.data = "nan".data)) := by
    have h1 : ((trimChars s.data).map commaToDot).isEmpty = (trimChars s.data).isEmpty := by
      cases trimChars s.data <;> simp
    rw [h1, decide_eq_decide.mpr (map_commaToDot_eq_iff _ _ hNone),
      decide_eq_decide.mpr (map_commaToDot_eq_iff _ _ hnan)]
  rw [hsent]
  by_cases h : ((trimChars s.data).isEmpty ||
      (trimChars s.data = "None".data) || (trimChars s.data = "nan".data)) = true
  · rw [if_pos h, if_pos h]
  · rw [if_neg h, if_neg h]
    congr 1
    rw [List.map_map,
      show nbspToSpace ∘ commaToDot = commaToDot ∘ nbspToSpace from
        funext nbspToSpace_commaToDot,
      ← List.map_map, List.filter_map,
      show ((fun c => decide (c ≠ ' ')) ∘ commaToDot) = (fun c => decide (c ≠ ' ')) from
        funext commaToDot_ne_space,
      List.map_map,
      show commaToDot ∘ commaToDot = commaToDot from funext commaToDot_idem]

/-! ## C3 — per-address cache -/

/-- C3: resolving one canonical address twice within a run issues
exactly one outbound provider call.  From any cache state in which a
non-empty address is not yet cached, the first `geocode_one` call
increments the outbound-call counter by exactly one, and the second
call on the same address returns the same result with the state
unchanged (served from the cache, no further outbound call). -/
theorem C3_cache_single_call (p : Provider) (st : GeoState) (address : String)
    (hmiss : st.cache.lookup address = none) (hne : address ≠ "") :
    (geocode_one p st address).2.calls = st.calls + 1 ∧
    geocode_one p (geocode_one p st address).2 address = geocode_one p st address := by
  unfold geocode_one
  rw [hmiss]
  simp [hne, List.lookup]

/-- C3 (witness): a fresh cache, a constant provider and the address
`"a"`: one call is issued and the repeat lookup is served unchanged. -/
theorem C3_witness :
    (geocode_one (fun _ => some (50, 15)) ⟨[], 0⟩ "a").2.calls = 0 + 1 ∧
    geocode_one (fun _ => some (50, 15))
        ((geocode_one (fun _ => some (50, 15)) ⟨[], 0⟩ "a").2) "a" =
      geocode_one (fun _ => some (50, 15)) ⟨[], 0⟩ "a" :=
  C3_cache_single_call (fun _ => some (50, 15)) ⟨[], 0⟩ "a" rfl (by decide)

/-! ## The attempt log of `geocode_missing` -/

/-- The resolver is handed exactly the full addresses of the rows whose
`lat` or `lon` is missing, in dataset order. -/
lemma geocode_missing_log_snd (geo : String → Option (ℚ × ℚ)) (df : List Record) :
    (geocode_missing_log geo df).2 = (df.filter needsGeo).map build_full_address := by
  induction df with
  | nil => rfl
  | cons r rs ih =>
    unfold geocode_missing_log
    by_cases h : needsGeo r = true
    · cases hg : geo (build_full_address r) with
      | none => simp [h, hg, ih, List.filter_cons]
      | some c => cases c; simp [h, hg, ih, List.filter_cons]
    · simp [h, ih, List.filter_cons]

/-- A row that does not need geocoding is returned at its position with
all fields unchanged. -/
lemma geocode_missing_log_fst_skip (geo : String → Option (ℚ × ℚ)) (df : List Record)
    (i : Nat) (r : Record) (hi : df[i]? = some r) (hr : needsGeo r = false) :
    (geocode_missing_log geo df).1[i]? = some r := by
  induction df generalizing i with
  | nil => simp at hi
  | cons q rs ih =>
    cases i with
    | zero =>
      simp only [List.getElem?_cons_zero, Option.some.injEq] at hi
      subst hi
      simp [geocode_missing_log, hr]
    | succ n =>
      simp only [List.getElem?_cons_succ] at hi
      by_cases h : needsGeo q = true
      · cases hg : geo (build_full_address q) with
        | none => simpa [geocode_missing_log, h, hg] using ih n hi
        | some c => cases c; simpa [geocode_missing_log, h, hg] using ih n hi
      · simpa [geocode_missing_log, h] using ih n hi

/-! ## C9 — total provider outage -/

/-- C9: a total provider outage is non-fatal.  With every outbound
query failing (`none`, covering timeouts, network errors and provider
errors, all swallowed into `None` by the source), `geocode_missing`
still attempts every row needing resolution — in order, to the end of
the batch — and returns the dataset unchanged, every attempted record
remaining unresolved; no exception propagates (the run is a total
function returning the dataframe). -/
theorem C9_outage_nonfatal (df : List Record) :
    geocode_missing_log (fun _ => none) df =
      (df, (df.filter needsGeo).map build_full_address) := by
  induction df with
  | nil => rfl
  | cons r rs ih =>
    by_cases h : needsGeo r = true
    · simp [geocode_missing_log, ih, h, List.filter_cons]
    · simp [geocode_missing_log, ih, h, List.filter_cons]

/-! ## C5 — pre-resolved rows are skipped and unchanged -/

/-- C5: a record whose `lat` and `lon` are both present before the run
is never sent to the resolver, and reappears in the resolver's output
at its position with every field unchanged; moreover every address the
batch does send to the resolver belongs to some row lacking a
coordinate. -/
theorem C5_preresolved_untouched (geo : String → Option (ℚ × ℚ)) (df : List Record)
    (i : Nat) (r : Record) (hi : df[i]? = some r)
    (hlat : r.lat.isSome = true) (hlon : r.lon.isSome = true) :
    (geocode_missing geo df)[i]? = some r ∧
    ∀ a ∈ (geocode_missing_log geo df).2,
      ∃ r', r' ∈ df ∧ needsGeo r' = true ∧ a = build_full_address r' := by
  have hr : needsGeo r = false := by
    cases hl : r.lat with
    | none => rw [hl] at hlat; simp at hlat
    | some a =>
      cases ho : r.lon with
      | none => rw [ho] at hlon; simp at hlon
      | some o => simp [needsGeo, hl, ho]
  constructor
  · exact geocode_missing_log_fst_skip geo df i r hi hr
  · intro a ha
    rw [geocode_missing_log_snd] at ha
    rw [List.mem_map] at ha
    obtain ⟨r', hr', ha'⟩ := ha
    rw [List.mem_filter] at hr'
    exact ⟨r', hr'.1, hr'.2, ha'.symm⟩

/-- C5 (witness): a two-row dataset whose first row is pre-resolved at
(49, 16): the run returns it unchanged in place, and only addresses of
unresolved rows are attempted. -/
theorem C5_witness :
    (geocode_missing (fun _ => some (50, 15))
      [{ blankRecord with lat := some 49, lon := some 16 }, mainRecord])[0]? =
      some { blankRecord with lat := some 49, lon := some 16 } ∧
    ∀ a ∈ (geocode_missing_log (fun _ => some (50, 15))
        [{ blankRecord with lat := some 49, lon := some 16 }, mainRecord]).2,
      ∃ r', r' ∈ [{ blankRecord with lat := some 49, lon := some 16 }, mainRecord] ∧
        needsGeo r' = true ∧ a = build_full_address r' :=
  C5_preresolved_untouched (fun _ => some (50, 15))
    [{ blankRecord with lat := some 49, lon := some 16 }, mainRecord] 0
    { blankRecord with lat := some 49, lon := some 16 } rfl rfl rfl

/-! ## C2 — there is no batch cap -/

/-- The unresolved count surfaced to the caller (the sidebar counter at
src/app.py:367-368 and the final summary at src/app.py:426-431): the
number of rows with a missing coordinate. -/
def unresolvedCount (df : List Record) : Nat :=
  (df.filter needsGeo).length

/-- C2 (counterexample): on the spec's own scenario — 350 records
needing resolution with the example cap of 300 — `geocode_missing`
attempts all 350 addresses, not the first 300: the source has no batch
cap at all. -/
theorem C2_counterexample :
    (geocodeAttempts (fun _ => none) (List.replicate 350 blankRecord)).length = 350 ∧
    (geocodeAttempts (fun _ => none) (List.replicate 350 blankRecord)).length ≠ 300 := by
  have hfilter : (List.replicate 350 blankRecord).filter needsGeo =
      List.replicate 350 blankRecord :=
    List.filter_eq_self.mpr (fun a ha => by rw [List.eq_of_mem_replicate ha]; rfl)
  have hlen : (geocodeAttempts (fun _ => none) (List.replicate 350 blankRecord)).length = 350 := by
    unfold geocodeAttempts
    rw [geocode_missing_log_snd, hfilter, List.length_map, List.length_replicate]
  exact ⟨hlen, by rw [hlen]; omega⟩

/-- C2 (amended): there is no batch cap — for every dataset, the
resolution run attempts to geocode every record needing resolution
(those with a missing coordinate), in dataset order; afterwards the
rows the provider failed to resolve are still present and are exactly
what the reported unresolved count counts. -/
theorem C2_all_attempted (geo : String → Option (ℚ × ℚ)) (df : List Record) :
    geocodeAttempts geo df = (df.filter needsGeo).map build_full_address ∧
    unresolvedCount (geocode_missing geo df) =
      (df.filter fun r => needsGeo r && (geo (build_full_address r)).isNone).length := by
  constructor
  · exact geocode_missing_log_snd geo df
  · induction df with
    | nil => rfl
    | cons r rs ih =>
      by_cases h : needsGeo r = true
      · cases hg : geo (build_full_address r) with
        | none =>
          simpa [unresolvedCount, geocode_missing, geocode_missing_log, h, hg,
            List.filter_cons] using ih
        | some c =>
          obtain ⟨a, o⟩ := c
          have hnew : needsGeo { r with lat := some a, lon := some o } = false := rfl
          simpa [unresolvedCount, geocode_missing, geocode_missing_log, h, hg, hnew,
            List.filter_cons] using ih
      · simpa [unresolvedCount, geocode_missing, geocode_missing_log, h,
          List.filter_cons] using ih

/-! ## C7 — the write-back delta -/

/-- The example row resolved to a coordinate inside the region. -/
def mainResolved : Record :=
  { mainRecord with lat := some 49, lon := some 16 }

/-- C7: every record the write-back loop writes comes from a row pair
whose original had a missing `lat` or `lon` and whose updated row has
both present; consequently a record that was already render-ready
before the run (both coordinates present) is never in the write-back
delta. -/
theorem C7_delta_newly_resolved (pairs : List (Record × Record)) (saved : List String)
    (w : Record) (hw : w ∈ (write_back_latlon pairs saved).1) :
    ∃ p, p ∈ pairs ∧ w = p.2 ∧
      (p.1.lat.isNone || p.1.lon.isNone) = true ∧
      p.2.lat.isSome = true ∧ p.2.lon.isSome = true := by
  induction pairs generalizing saved with
  | nil => simp [write_back_latlon] at hw
  | cons q rest ih =>
    obtain ⟨o, u⟩ := q
    by_cases hc : changedMask o u = true
    · by_cases hks : row_key u ∈ saved
      · rw [show write_back_latlon ((o, u) :: rest) saved = write_back_latlon rest saved from
            by simp [write_back_latlon, hc, hks]] at hw
        obtain ⟨p, hp, hrest⟩ := ih saved hw
        exact ⟨p, List.mem_cons_of_mem _ hp, hrest⟩
      · rw [show write_back_latlon ((o, u) :: rest) saved =
            (u :: (write_back_latlon rest (row_key u :: saved)).1,
              (write_back_latlon rest (row_key u :: saved)).2) from
            by simp [write_back_latlon, hc, hks]] at hw
        rcases List.mem_cons.mp hw with hw | hw
        · have hc' := hc
          unfold changedMask at hc'
          rw [Bool.and_eq_true, Bool.and_eq_true] at hc'
          exact ⟨(o, u), List.mem_cons_self _ _, hw, hc'.1, hc'.2.1, hc'.2.2⟩
        · obtain ⟨p, hp, hrest⟩ := ih _ hw
          exact ⟨p, List.mem_cons_of_mem _ hp, hrest⟩
    · rw [show write_back_latlon ((o, u) :: rest) saved = write_back_latlon rest saved from
          by simp [write_back_latlon, hc]] at hw
      obtain ⟨p, hp, hrest⟩ := ih saved hw
      exact ⟨p, List.mem_cons_of_mem _ hp, hrest⟩

/-- C7 (witness): the delta of a run that newly resolved the example
row contains only that pair's updated row. -/
theorem C7_witness :
    ∃ p, p ∈ [(mainRecord, mainResolved)] ∧ mainResolved = p.2 ∧
      (p.1.lat.isNone || p.1.lon.isNone) = true ∧
      p.2.lat.isSome = true ∧ p.2.lon.isSome = true :=
  C7_delta_newly_resolved [(mainRecord, mainResolved)] [] mainResolved (by decide)

/-! ## C8 — write-back idempotence within a session -/

/-- Keys already saved in the session survive a write-back run. -/
lemma write_back_saved_mono (pairs : List (Record × Record)) (saved : List String)
    (k : String) (hk : k ∈ saved) : k ∈ (write_back_latlon pairs saved).2 := by
  induction pairs generalizing saved with
  | nil => simpa [write_back_latlon] using hk
  | cons q rest ih =>
    obtain ⟨o, u⟩ := q
    by_cases hc : changedMask o u = true
    · by_cases hks : row_key u ∈ saved
      · simpa [write_back_latlon, hc, hks] using ih saved hk
      · simpa [write_back_latlon, hc, hks] using
          ih (row_key u :: saved) (List.mem_cons_of_mem _ hk)
    · simpa [write_back_latlon, hc] using ih saved hk

/-- After a run, the key of every changed pair is in the session set. -/
lemma write_back_key_saved (pairs : List (Record × Record)) (saved : List String)
    (o u : Record) (hp : (o, u) ∈ pairs) (hc : changedMask o u = true) :
    row_key u ∈ (write_back_latlon pairs saved).2 := by
  induction pairs generalizing saved with
  | nil => simp at hp
  | cons q rest ih =>
    obtain ⟨o', u'⟩ := q
    rcases List.mem_cons.mp hp with heq | hmem
    · rw [Prod.mk.injEq] at heq
      obtain ⟨rfl, rfl⟩ := heq
      by_cases hks : row_key u ∈ saved
      · simpa [write_back_latlon, hc, hks] using write_back_saved_mono rest saved _ hks
      · simpa [write_back_latlon, hc, hks] using
          write_back_saved_mono rest (row_key u :: saved) _ (List.mem_cons_self _ _)
    · by_cases hc' : changedMask o' u' = true
      · by_cases hks : row_key u' ∈ saved
        · simpa [write_back_latlon, hc', hks] using ih saved hmem
        · simpa [write_back_latlon, hc', hks] using ih (row_key u' :: saved) hmem
      · simpa [write_back_latlon, hc'] using ih saved hmem

/-- C8: write-back is idempotent within a session.  Starting from the
session key set left by a first invocation, a second invocation of the
write loop on the same row pairs writes no record at all (every
eligible record's stable key — derived from its canonical address plus
its display name — is already tracked), and leaves the session set
unchanged: each record is persisted at most once. -/
theorem C8_writeback_idempotent (pairs : List (Record × Record)) (saved : List String) :
    write_back_latlon pairs (write_back_latlon pairs saved).2 =
      ([], (write_back_latlon pairs saved).2) := by
  induction pairs generalizing saved with
  | nil => rfl
  | cons q rest ih =>
    obtain ⟨o, u⟩ := q
    by_cases hc : changedMask o u = true
    · by_cases hks : row_key u ∈ saved
      · have h1 : write_back_latlon ((o, u) :: rest) saved = write_back_latlon rest saved := by
          simp [write_back_latlon, hc, hks]
        rw [h1]
        have hk1 : row_key u ∈ (write_back_latlon rest saved).2 :=
          write_back_saved_mono rest saved _ hks
        have h2 : write_back_latlon ((o, u) :: rest) (write_back_latlon rest saved).2 =
            write_back_latlon rest (write_back_latlon rest saved).2 := by
          simp [write_back_latlon, hc, hk1]
        rw [h2, ih saved]
      · have h1 : write_back_latlon ((o, u) :: rest) saved =
            (u :: (write_back_latlon rest (row_key u :: saved)).1,
              (write_back_latlon rest (row_key u :: saved)).2) := by
          simp [write_back_latlon, hc, hks]
        rw [h1]
        have hk1 : row_key u ∈ (write_back_latlon rest (row_key u :: saved)).2 :=
          write_back_saved_mono rest _ _ (List.mem_cons_self _ _)
        have h2 : write_back_latlon ((o, u) :: rest)
              (write_back_latlon rest (row_key u :: saved)).2 =
            write_back_latlon rest (write_back_latlon rest (row_key u :: saved)).2 := by
          simp [write_back_latlon, hc, hk1]
        rw [h2, ih (row_key u :: saved)]
    · have h2 : ∀ s, write_back_latlon ((o, u) :: rest) s = write_back_latlon rest s :=
        fun s => by simp [write_back_latlon, hc]
      rw [h2, h2, ih saved]

/-! ## C1 — the Validity Region invariant of the render-ready output -/

/-- A bad latitude is demoted to missing, whatever happens to the
longitude. -/
lemma postGeocodeRow_lat_none (r : Record) (a : ℚ) (hl : r.lat = some a)
    (hbad : latInRegion a = false) : (postGeocodeRow r).lat = none := by
  unfold postGeocodeRow
  simp only [hl, hbad, Bool.false_eq_true, if_false]
  cases ho : r.lon with
  | none => simp [ho]
  | some o =>
    by_cases hol : lonInRegion o = true
    · simp [ho, hol]
    · simp [ho, hol]

/-- A bad longitude is demoted to missing, whatever happens to the
latitude. -/
lemma postGeocodeRow_lon_none (r : Record) (o : ℚ) (ho : r.lon = some o)
    (hbad : lonInRegion o = false) : (postGeocodeRow r).lon = none := by
  unfold postGeocodeRow
  cases hl : r.lat with
  | none => simp [ho, hbad]
  | some a =>
    by_cases hla : latInRegion a = true
    · simp [hla, ho, hbad]
    · simp [hla, ho, hbad]

/-- C1: every point the map renderer places lies inside the Validity
Region (47 ≤ lat ≤ 55 and 11 ≤ lon ≤ 25), and a record holding a
coordinate outside the region is demoted to unresolved (the offending
coordinate becomes missing, the row stays in the dataframe) — so it is
absent from the render-ready output rather than surfaced as an
error. -/
theorem C1_validity_region (df : List Record) :
    (∀ p ∈ renderReadyPoints df,
      47 ≤ p.1 ∧ p.1 ≤ 55 ∧ 11 ≤ p.2 ∧ p.2 ≤ 25) ∧
    (∀ (i : Nat) (r : Record), df[i]? = some r →
      (∀ a, r.lat = some a → latInRegion a = false →
        ∃ r' : Record, (postGeocodeFilter df)[i]? = some r' ∧ r'.lat = none) ∧
      (∀ o, r.lon = some o → lonInRegion o = false →
        ∃ r' : Record, (postGeocodeFilter df)[i]? = some r' ∧ r'.lon = none)) := by
  constructor
  · intro p hp
    unfold renderReadyPoints make_map_points at hp
    rw [List.mem_filterMap] at hp
    obtain ⟨r, hr, hmatch⟩ := hp
    unfold hardValidate at hr
    rw [List.mem_map] at hr
    obtain ⟨r0, _m, hr0⟩ := hr
    by_cases hv : rowValid r0 = true
    · rw [if_pos hv] at hr0
      subst hr0
      cases hl : r0.lat with
      | none => rw [hl] at hmatch; simp at hmatch
      | some a =>
        cases ho : r0.lon with
        | none => rw [hl, ho] at hmatch; simp at hmatch
        | some o =>
          rw [hl, ho] at hmatch
          simp only [Option.some.injEq] at hmatch
          subst hmatch
          unfold rowValid at hv
          rw [hl, ho, Bool.and_eq_true] at hv
          simp only [latInRegion, lonInRegion, decide_eq_true_eq] at hv
          exact ⟨hv.1.1, hv.1.2, hv.2.1, hv.2.2⟩
    · rw [if_neg hv] at hr0
      subst hr0
      simp at hmatch
  · intro i r hi
    have hmap : (postGeocodeFilter df)[i]? = some (postGeocodeRow r) := by
      unfold postGeocodeFilter
      rw [List.getElem?_map, hi]
      rfl
    exact ⟨fun a hl hbad => ⟨postGeocodeRow r, hmap, postGeocodeRow_lat_none r a hl hbad⟩,
           fun o ho hbad => ⟨postGeocodeRow r, hmap, postGeocodeRow_lon_none r o ho hbad⟩⟩

/-- A record resolved inside the region. -/
def inRegionRecord : Record :=
  { blankRecord with lat := some 49, lon := some 16 }

/-- A record whose latitude (174) lies outside the region. -/
def outOfRegionRecord : Record :=
  { blankRecord with lat := some 174, lon := some 16 }

/-- C1 (witness): on a dataset holding one in-region and one
out-of-region record, the rendered point (49, 16) is within bounds and
the out-of-region record's latitude is demoted to missing. -/
theorem C1_witness :
    ((47 : ℚ) ≤ (49 : ℚ) ∧ (49 : ℚ) ≤ 55 ∧ (11 : ℚ) ≤ (16 : ℚ) ∧ (16 : ℚ) ≤ 25) ∧
    ∃ r', (postGeocodeFilter [inRegionRecord, outOfRegionRecord])[1]? = some r' ∧
      r'.lat = none :=
  ⟨(C1_validity_region [inRegionRecord, outOfRegionRecord]).1 (49, 16) (by decide),
   ((C1_validity_region [inRegionRecord, outOfRegionRecord]).2 1 outOfRegionRecord
      (by decide)).1 174 rfl (by decide)⟩

end ExcelMap
